import Mathlib

/-!
Verification development for a Flask-based Graph-notification middleware.

The repository holds two near-duplicate variants of the same service:
`src/app.py` (module-level dict state, 5-iteration PUT loops) and
`src/application.py` (pickle-file state, single PUTs, a None-mail guard in
subscription registration).  The embedding below models `src/app.py` as the
primary variant; the leaf functions where `src/application.py` differs
(`parse_event`, `process_message`, `register_subscriptions`) are embedded a
second time in the `Az` namespace.

Modelling conventions:
* `datetime` values are integer timestamps in seconds; `timedelta(hours=h)`
  is `h * 3600` and `timedelta(days=d)` is `d * 86400`; `isoformat` is the
  decimal rendering of the timestamp.
* Outbound HTTP is an oracle (`World`): each kind of fetch is a function
  from the request URL (or request body, for subscription creation) to the
  typed response the service-of-record would return; `none` models a
  non-2xx or error-body response (`odata_getone` returning `None`).
* Python exceptions are the `Except PyErr` component of `Eff`; side effects
  performed before an exception (HTTP calls, log lines) are kept, exactly
  as in Python.
* JSON objects fetched from the upstream are modelled as typed records
  (the Graph API schema); the notification item's `clientState` stays a raw
  string because parsing it is part of the logic under test.
* `hashlib.sha512(...).hexdigest()` is embedded as a full executable
  SHA-512 over the UTF-8 bytes of the input string.
-/

/-! ## SHA-512 (hashlib.sha512(...).hexdigest()) -/

def w64 (n : Nat) : Nat := n % 18446744073709551616

def rotr64 (x n : Nat) : Nat := w64 ((x >>> n) ||| (x <<< (64 - n)))

def notW64 (x : Nat) : Nat := x ^^^ 18446744073709551615

def bsig0 (x : Nat) : Nat := (rotr64 x 28) ^^^ (rotr64 x 34) ^^^ (rotr64 x 39)

def bsig1 (x : Nat) : Nat := (rotr64 x 14) ^^^ (rotr64 x 18) ^^^ (rotr64 x 41)

def ssig0 (x : Nat) : Nat := (rotr64 x 1) ^^^ (rotr64 x 8) ^^^ (x >>> 7)

def ssig1 (x : Nat) : Nat := (rotr64 x 19) ^^^ (rotr64 x 61) ^^^ (x >>> 6)

def chF (x y z : Nat) : Nat := (x &&& y) ^^^ ((notW64 x) &&& z)

def majF (x y z : Nat) : Nat := (x &&& y) ^^^ (x &&& z) ^^^ (y &&& z)

def SHA512_K : List Nat := [
  4794697086780616226, 8158064640168781261, 13096744586834688815, 16840607885511220156,
  4131703408338449720, 6480981068601479193, 10538285296894168987, 12329834152419229976,
  15566598209576043074, 1334009975649890238, 2608012711638119052, 6128411473006802146,
  8268148722764581231, 9286055187155687089, 11230858885718282805, 13951009754708518548,
  16472876342353939154, 17275323862435702243, 1135362057144423861, 2597628984639134821,
  3308224258029322869, 5365058923640841347, 6679025012923562964, 8573033837759648693,
  10970295158949994411, 12119686244451234320, 12683024718118986047, 13788192230050041572,
  14330467153632333762, 15395433587784984357, 489312712824947311, 1452737877330783856,
  2861767655752347644, 3322285676063803686, 5560940570517711597, 5996557281743188959,
  7280758554555802590, 8532644243296465576, 9350256976987008742, 10552545826968843579,
  11727347734174303076, 12113106623233404929, 14000437183269869457, 14369950271660146224,
  15101387698204529176, 15463397548674623760, 17586052441742319658, 1182934255886127544,
  1847814050463011016, 2177327727835720531, 2830643537854262169, 3796741975233480872,
  4115178125766777443, 5681478168544905931, 6601373596472566643, 7507060721942968483,
  8399075790359081724, 8693463985226723168, 9568029438360202098, 10144078919501101548,
  10430055236837252648, 11840083180663258601, 13761210420658862357, 14299343276471374635,
  14566680578165727644, 15097957966210449927, 16922976911328602910, 17689382322260857208,
  500013540394364858, 748580250866718886, 1242879168328830382, 1977374033974150939,
  2944078676154940804, 3659926193048069267, 4368137639120453308, 4836135668995329356,
  5532061633213252278, 6448918945643986474, 6902733635092675308, 7801388544844847127]

structure H8 where
  a : Nat
  b : Nat
  c : Nat
  d : Nat
  e : Nat
  f : Nat
  g : Nat
  hh : Nat
deriving DecidableEq, Repr

def sha512_init : H8 :=
  ⟨7640891576956012808, 13503953896175478587, 4354685564936845355, 11912009170470909681,
   5840696475078001361, 11170449401992604703, 2270897969802886507, 6620516959819538809⟩

/-- One round of the SHA-512 compression function. -/
def sha512_round (st : H8) (kw : Nat × Nat) : H8 :=
  let t1 := w64 (st.hh + bsig1 st.e + chF st.e st.f st.g + kw.1 + kw.2)
  let t2 := w64 (bsig0 st.a + majF st.a st.b st.c)
  ⟨w64 (t1 + t2), st.a, st.b, st.c, w64 (st.d + t1), st.e, st.f, st.g⟩

/-- Message-schedule extension: `acc` holds the words computed so far, most
recent first; `n` counts the remaining words (64 for a full block). -/
def sha512_schedule : Nat → List Nat → List Nat
  | 0, acc => acc.reverse
  | n + 1, acc =>
    let nw := w64 (ssig1 (acc.getD 1 0) + acc.getD 6 0 + ssig0 (acc.getD 14 0) + acc.getD 15 0)
    sha512_schedule n (nw :: acc)

def bytesToWord (bs : List Nat) : Nat := bs.foldl (fun acc b => acc * 256 + b) 0

def blockWords (block : List Nat) : List Nat :=
  (List.range 16).map (fun i => bytesToWord ((block.drop (8 * i)).take 8))

def sha512_block (st : H8) (block : List Nat) : H8 :=
  let ws := sha512_schedule 64 (blockWords block).reverse
  let st' := (SHA512_K.zip ws).foldl sha512_round st
  ⟨w64 (st.a + st'.a), w64 (st.b + st'.b), w64 (st.c + st'.c), w64 (st.d + st'.d),
   w64 (st.e + st'.e), w64 (st.f + st'.f), w64 (st.g + st'.g), w64 (st.hh + st'.hh)⟩

/-- Merkle–Damgård padding: append 0x80, zeros, and the 128-bit big-endian
bit length, reaching a multiple of 128 bytes. -/
def sha512_pad (msg : List Nat) : List Nat :=
  let len := msg.length
  let zeros := (240 - ((len + 1) % 128)) % 128
  msg ++ (128 :: List.replicate zeros 0)
      ++ ((List.range 16).map (fun i => ((8 * len) >>> (8 * (15 - i))) % 256))

def chunks128Go : Nat → List Nat → List (List Nat)
  | 0, _ => []
  | _, [] => []
  | n + 1, a :: l => ((a :: l).take 128) :: chunks128Go n ((a :: l).drop 128)

/-- Split into 128-byte blocks (structural fuel recursion: each step consumes
at least one byte, so `l.length` steps always suffice). -/
def chunks128 (l : List Nat) : List (List Nat) := chunks128Go l.length l

/-- UTF-8 encoding of one character (mirrors str.encode of Python). -/
def utf8EncodeCh (c : Char) : List Nat :=
  let n := c.toNat
  if n < 128 then [n]
  else if n < 2048 then [192 ||| (n >>> 6), 128 ||| (n &&& 63)]
  else if n < 65536 then
    [224 ||| (n >>> 12), 128 ||| ((n >>> 6) &&& 63), 128 ||| (n &&& 63)]
  else
    [240 ||| (n >>> 18), 128 ||| ((n >>> 12) &&& 63),
     128 ||| ((n >>> 6) &&& 63), 128 ||| (n &&& 63)]

def strBytes (s : String) : List Nat := s.data.flatMap utf8EncodeCh

def sha512_words (s : String) : List Nat :=
  let st := (chunks128 (sha512_pad (strBytes s))).foldl sha512_block sha512_init
  [st.a, st.b, st.c, st.d, st.e, st.f, st.g, st.hh]

def hexDigitChar (n : Nat) : Char :=
  if n < 10 then Char.ofNat (48 + n) else Char.ofNat (87 + n)

def hexWord16 (x : Nat) : List Char :=
  (List.range 16).map (fun i => hexDigitChar ((x >>> (4 * (15 - i))) % 16))

/-- `hashlib.sha512(s.encode("utf-8")).hexdigest()`. -/
def sha512_hexdigest (s : String) : String :=
  String.mk (((sha512_words s).map hexWord16).flatten)

/-! ## Correlation key codec

`trigger_middleware` derives the key inline:
`_hkey = hashlib.sha512(s).hexdigest()`, then `hkey = [_hkey[0:32], _hkey[32:]]`;
`_handle_subscription_callback_value` rebuilds it as `hkey0 + hkey1`. -/

/-- Python string slice `s[0:n]` (by characters). -/
def pyTake (s : String) (n : Nat) : String := String.mk (s.data.take n)

/-- Python string slice `s[n:]` (by characters). -/
def pyDrop (s : String) (n : Nat) : String := String.mk (s.data.drop n)

/-- The inline key derivation of `trigger_middleware`:
digest of `calendar_webhook + email_webhook`, split as `[_hkey[0:32], _hkey[32:]]`. -/
def derive_key (calendar_webhook email_webhook : String) : String × String :=
  let _hkey := sha512_hexdigest (calendar_webhook ++ email_webhook)
  (pyTake _hkey 32, pyDrop _hkey 32)

/-- The key reconstruction of `_handle_subscription_callback_value`: `hkey0 + hkey1`. -/
def rebuild_key (hkey0 hkey1 : String) : String := hkey0 ++ hkey1

/-! ## Python-level effect monad

`Eff α` is the outcome of running a piece of the service: a Python result or
exception, together with the ordered list of outbound HTTP calls made and the
warning/error log lines emitted before returning/raising. -/

inductive PyErr where
  | middleware (msg : String)
  | valueError
  | keyError
  | indexError
  | typeError
deriving DecidableEq, Repr

instance {e a : Type} [DecidableEq e] [DecidableEq a] : DecidableEq (Except e a) := fun x y =>
  match x, y with
  | Except.ok v, Except.ok w => if h : v = w then isTrue (by rw [h]) else isFalse (by simp [h])
  | Except.error v, Except.error w =>
    if h : v = w then isTrue (by rw [h]) else isFalse (by simp [h])
  | Except.ok _, Except.error _ => isFalse (by simp)
  | Except.error _, Except.ok _ => isFalse (by simp)

structure MessageData where
  id : String
  fromAddress : String
  importance : String
deriving DecidableEq, Repr

structure EventData where
  id : String
  startTime : Int
  locationDisplayName : String
  bodyContent : String
deriving DecidableEq, Repr

structure UserRec where
  id : String
  mail : Option String
deriving DecidableEq, Repr

structure UserFull where
  id : String
  mail : Option String
  manager_mail : String
deriving DecidableEq, Repr

structure SubRec where
  id : String
  notificationUrl : String
deriving DecidableEq, Repr

structure StateRec where
  authorization : Option String
  calendar_webhook : String
  email_webhook : String
  next_sync : Int
deriving DecidableEq, Repr

structure NotificationItem where
  clientState : String
  changeType : String
  odataId : String
deriving DecidableEq, Repr

structure SubRequest where
  changeType : String
  notificationUrl : String
  resource : String
  expirationTime : Int
  clientState : String
deriving DecidableEq, Repr

structure MsgPut where
  msg : MessageData
  owner : String
  is_from_manager : Bool
deriving DecidableEq, Repr

structure EvtPut where
  event : EventData
  owner : Option String
  meetingLink : Option String
deriving DecidableEq, Repr

structure HttpResponse where
  status : Nat
  body : String
deriving DecidableEq, Repr

inductive Call where
  | get (url : String)
  | postSub (url : String) (body : SubRequest)
  | putMsg (url : String) (body : MsgPut)
  | putEvt (url : String) (body : EvtPut)
  | delete (url : String)
deriving DecidableEq, Repr

/-- One page of an OData listing (the `value` array and `@odata.nextLink`). -/
structure Page (α : Type) where
  value : List α
  nextLink : Option String
deriving DecidableEq, Repr

/-- The deterministic environment: current time and the response the upstream
or downstream endpoints give to each request. -/
structure World where
  now : Int
  userPages : String → Option (Page UserRec)
  subPages : String → Option (Page SubRec)
  eventPages : String → Option (Page EventData)
  managerObj : String → Option (Option String)
  fetchMessage : String → Option MessageData
  fetchEvent : String → Option EventData
  putOk : String → Bool
  deleteOk : String → Bool
  postOk : SubRequest → Bool

structure Eff (α : Type) where
  res : Except PyErr α
  calls : List Call
  logs : List String
deriving Repr

def Eff.pure {α : Type} (a : α) : Eff α := ⟨Except.ok a, [], []⟩

def Eff.bind {α β : Type} (x : Eff α) (f : α → Eff β) : Eff β :=
  match x.res with
  | Except.error e => ⟨Except.error e, x.calls, x.logs⟩
  | Except.ok a => ⟨(f a).res, x.calls ++ (f a).calls, x.logs ++ (f a).logs⟩

def Eff.emit (c : Call) : Eff Unit := ⟨Except.ok (), [c], []⟩

def Eff.log (s : String) : Eff Unit := ⟨Except.ok (), [], [s]⟩

/-- `raise MiddlewareException(msg)`: the exception constructor logs the
message at error level before raising. -/
def Eff.raiseMW {α : Type} (msg : String) : Eff α := ⟨Except.error (PyErr.middleware msg), [], [msg]⟩

def Eff.raise {α : Type} (e : PyErr) : Eff α := ⟨Except.error e, [], []⟩

/-- `try: ... except MiddlewareException: pass` — other exceptions propagate. -/
def catchMW (x : Eff Unit) : Eff Unit :=
  match x.res with
  | Except.error (PyErr.middleware _) => ⟨Except.ok (), x.calls, x.logs⟩
  | _ => x

/-- Sequential `for` loop over a list. -/
def forEach {α : Type} : List α → (α → Eff Unit) → Eff Unit
  | [], _ => Eff.pure ()
  | a :: as, f => Eff.bind (f a) (fun _ => forEach as f)

/-- Sequential loop collecting results (the enumerate-and-update loop of
`get_all_users`). -/
def mapEff {α β : Type} : List α → (α → Eff β) → Eff (List β)
  | [], _ => Eff.pure []
  | a :: as, f => Eff.bind (f a) (fun b => Eff.bind (mapEff as f) (fun bs => Eff.pure (b :: bs)))

def concatMap {α β : Type} (l : List α) (f : α → List β) : List β := (l.map f).flatten

/-! ## Configuration constants (src/app.py) -/

def SUBSCRIPTION_CALLBACK_URL : String := "https://vs.breker.name"

def SUBSCRIPTION_CALLBACK_PATH : String := "handle_subscription_callback"

def GRAPH_API_URL : String := "https://graph.microsoft.com/"

def HOURS_BETWEEN_FULLSYNC_AND_RESCUBSCRIBE : Int := 23

def HOURS_TO_SUBSCRIBE : Int := 24

def CALENDAR_DAYS_TO_CACHE : Int := 8

/-- The module-level `globalstate` dict, keyed by the full hex key. -/
abbrev Store := List (String × StateRec)

def storeLookup : Store → String → Option StateRec
  | [], _ => none
  | (k, v) :: rest, key => if k == key then some v else storeLookup rest key

/-- `globalstate[hkey] = state` (newest binding shadows any older one). -/
def storePut (store : Store) (key : String) (v : StateRec) : Store := (key, v) :: store

/-- Python `x is None` on a dynamically-typed value. -/
def pyIsNone {α : Type} : Option α → Bool
  | none => true
  | some _ => false

/-- Python `s.startswith(pre)`. -/
def pyStartsWith (s pre : String) : Bool := pre.data.isPrefixOf s.data

def pyLowerChar (c : Char) : Char :=
  if 65 ≤ c.toNat ∧ c.toNat ≤ 90 then Char.ofNat (c.toNat + 32) else c

/-- Python `s.lower()` (ASCII case mapping, which covers the mail addresses
the service handles). -/
def pyLower (s : String) : String := String.mk (s.data.map pyLowerChar)

def pySplitGo (sep : Char) : List Char → List (List Char)
  | [] => [[]]
  | c :: cs =>
    if c = sep then [] :: pySplitGo sep cs
    else
      match pySplitGo sep cs with
      | [] => [[c]]
      | t :: ts => (c :: t) :: ts

/-- Python `s.split(sep)` for a one-character separator (the only form the
service uses: `clientState.split("^")`, and `rsplit("/", 1)[1]` as the last
part of the full split). -/
def pySplit (s : String) (sep : Char) : List String := (pySplitGo sep s.data).map String.mk

/-- `odata_id.rsplit("/", 1)[1]`: the segment after the last slash; raises
IndexError when the string holds no slash (rsplit then yields one part). -/
def pyRsplitLast (s : String) : Eff String :=
  let parts := pySplit s '/'
  if parts.length ≥ 2 then Eff.pure (parts.getLastD "") else Eff.raise PyErr.indexError

/-! ## OData helpers -/

/-- `odata_getone`: one GET; `none` models a not-ok status or an error body
(both log a warning and return `None`). -/
def odata_getone {α : Type} (oracle : String → Option α) (url : String) : Eff (Option α) :=
  Eff.bind (Eff.emit (Call.get url)) fun _ =>
    match oracle url with
    | none => Eff.bind (Eff.log ("Fetch url " ++ url ++ " failed")) fun _ => Eff.pure none
    | some v => Eff.pure (some v)

/-- The while-loop of `odata_get`, following `@odata.nextLink`; `fuel` bounds
the page chain (the embedding of a loop that Python runs unboundedly). -/
def odata_getGo {α : Type} (pages : String → Option (Page α)) :
    Nat → Option String → List α → Eff (List α)
  | _, none, acc => Eff.pure acc
  | 0, some _, acc => Eff.pure acc
  | fuel + 1, some url, acc =>
    Eff.bind (odata_getone pages url) fun rjson =>
      match rjson with
      | none => Eff.pure acc
      | some pg => odata_getGo pages fuel pg.nextLink (acc ++ pg.value)

/-- `odata_get`: accumulate `value` arrays across pages; always returns the
accumulated list (`all_values`), even when the first fetch fails. -/
def odata_get {α : Type} (pages : String → Option (Page α)) (url : String) (fuel : Nat) :
    Eff (List α) :=
  odata_getGo pages fuel (some url) []

/-! ## Directory client -/

def get_all_users (w : World) (fuel : Nat) : Eff (List UserFull) :=
  Eff.bind (odata_get w.userPages (GRAPH_API_URL ++ "/v1.0/users") fuel) fun users =>
  Eff.bind (if pyIsNone (some users) then Eff.raiseMW "Failed to get users"
            else Eff.pure ()) fun _ =>
  mapEff users (fun user =>
    Eff.bind (odata_getone w.managerObj
        (GRAPH_API_URL ++ "/v1.0/users/" ++ user.id ++ "/manager?$select=mail")) fun manager =>
      match manager with
      | some (some m) => Eff.pure ⟨user.id, user.mail, pyLower m⟩
      | _ => Eff.pure ⟨user.id, user.mail, ""⟩)

/-! ## Subscription manager -/

def wipe_subscriptions (w : World) (fuel : Nat) : Eff Unit :=
  Eff.bind (odata_get w.subPages
      (GRAPH_API_URL ++ "/v1.0/subscriptions/?" ++ "select=id,notificationUrl") fuel)
    fun subscriptions =>
  Eff.bind (if pyIsNone (some subscriptions) then Eff.raiseMW "Failed to wipe subscriptions"
            else Eff.pure ()) fun _ =>
  forEach subscriptions (fun subscription =>
    if pyStartsWith subscription.notificationUrl SUBSCRIPTION_CALLBACK_URL then
      Eff.bind (Eff.emit (Call.delete (GRAPH_API_URL ++ "/v1.0/subscriptions/" ++ subscription.id)))
        fun _ =>
        if w.deleteOk (GRAPH_API_URL ++ "/v1.0/subscriptions/" ++ subscription.id) then Eff.pure ()
        else Eff.raiseMW ("Failed to delete subscription " ++ subscription.id)
    else Eff.pure ())

def register_subscriptions (w : World) (hk0 hk1 : String) (users : List UserFull)
    (calendar_webhook email_webhook : String) : Eff Unit :=
  forEach users (fun user =>
    forEach ["messages", "events"] (fun subscription =>
      match user.mail with
      | none => Eff.raise PyErr.typeError
      | some mailv =>
        let data : SubRequest :=
          { changeType := "created,updated,deleted"
            notificationUrl := SUBSCRIPTION_CALLBACK_URL ++ "/" ++ SUBSCRIPTION_CALLBACK_PATH
                                ++ "/" ++ subscription ++ "/" ++ hk1
            resource := "/users/" ++ user.id ++ "/" ++ subscription ++ "/"
            expirationTime := w.now + HOURS_TO_SUBSCRIBE * 3600
            clientState := hk0 ++ "^" ++ mailv ++ "^" ++ user.manager_mail }
        Eff.bind (Eff.emit (Call.postSub (GRAPH_API_URL ++ "/v1.0/subscriptions") data)) fun _ =>
          if w.postOk data then Eff.pure ()
          else Eff.log ("Unable to subscribe " ++ mailv ++ " for " ++ subscription)))

/-! ## Meeting-link extractor -/

/-- Python regex class `\S` (not `[ \t\n\r\f\v]`). -/
def pyIsSpace (c : Char) : Bool :=
  c == ' ' || c == '\t' || c == '\n' || c == '\r' || c == Char.ofNat 11 || c == Char.ofNat 12

def isHttpsAt (l : List Char) : Bool := "https://".data.isPrefixOf l

/-- `re.findall(r"(https://\S+)", s)`: non-overlapping, leftmost matches of
the literal `https://` followed by a maximal nonempty run of non-space
characters.  Fuel recursion: each step consumes at least one character. -/
def findUrlsGo : Nat → List Char → List (List Char)
  | 0, _ => []
  | _, [] => []
  | n + 1, c :: cs =>
    if isHttpsAt (c :: cs) then
      let tok := (c :: cs).takeWhile (fun ch => !(pyIsSpace ch))
      if tok.length ≥ 9 then tok :: findUrlsGo n ((c :: cs).drop tok.length)
      else findUrlsGo n cs
    else findUrlsGo n cs

def findUrls (l : List Char) : List (List Char) := findUrlsGo l.length l

/-- `urlparse(url).netloc` for a URL starting with `https://`: the characters
after the scheme up to the first `/`, `?` or `#`. -/
def netlocOf (url : List Char) : List Char :=
  (url.drop 8).takeWhile (fun c => !(c == '/' || c == '?' || c == '#'))

def allowedNetloc (nl : List Char) : Bool :=
  let s := String.mk nl
  s == "gotomeet.me" || s == "www.gotomeet.me" || s == "global.gotomeeting.com"
    || s == "teams.microsoft.com" || ".webex.com".data.isSuffixOf nl

/-- `extract_meetinglink`: first found URL whose netloc is on the allow-list
(or ends in `.webex.com`); `None` when there is none. -/
def extract_meetinglink (astring : String) : Option String :=
  (List.find? (fun u => allowedNetloc (netlocOf u)) (findUrls astring.data)).map String.mk

/-! ## Change processor (src/app.py variant) -/

def parse_event (w : World) (event : EventData) (owner : Option String)
    (calendar_webhook : String) : Eff Unit :=
  if event.startTime < w.now - 1 * 86400
      ∨ event.startTime > w.now + CALENDAR_DAYS_TO_CACHE * 86400 then
    Eff.pure ()
  else
    let meeting_link := extract_meetinglink (event.locationDisplayName ++ "^" ++ event.bodyContent)
    let body : EvtPut := ⟨event, owner, meeting_link⟩
    Eff.bind (forEach (List.range 5) (fun _ => Eff.emit (Call.putEvt calendar_webhook body)))
      fun _ =>
      if w.putOk calendar_webhook then Eff.pure ()
      else Eff.log ("Failed to put to " ++ calendar_webhook)

def process_event (w : World) (globalstateentry : StateRec) (mail : String) (odata_id : String) :
    Eff Unit :=
  Eff.bind (odata_getone w.fetchEvent
      (GRAPH_API_URL ++ "/v1.0/" ++ odata_id
        ++ "?$select=id,subject,location,organizer,start,end,weblink,responsestatus,body,attendees,isCancelled"))
    fun jsondata =>
    match jsondata with
    | none => Eff.raiseMW ("Failed to resolve event in process_event " ++ odata_id)
    | some j => parse_event w j (some mail) globalstateentry.calendar_webhook

def process_message (w : World) (globalstateentry : StateRec)
    (mail manager_mail odata_id : String) : Eff Unit :=
  Eff.bind (odata_getone w.fetchMessage
      (GRAPH_API_URL ++ "/v1.0/" ++ odata_id
        ++ "?$select=id,subject,from,toRecipients,importance,sentDateTime,webLink,isRead"))
    fun jsondata =>
    match jsondata with
    | none => Eff.raiseMW ("Failed to resolve message in process_message " ++ odata_id)
    | some j =>
      let is_from_manager : Bool := manager_mail == pyLower j.fromAddress
      if !is_from_manager && j.importance != "high" then Eff.pure ()
      else
        let body : MsgPut := ⟨j, mail, is_from_manager⟩
        Eff.bind (forEach (List.range 5)
            (fun _ => Eff.emit (Call.putMsg globalstateentry.email_webhook body))) fun _ =>
          if w.putOk globalstateentry.email_webhook then Eff.pure ()
          else Eff.log ("Failed to put to " ++ globalstateentry.email_webhook)

def update_calendar (w : World) (users : List UserFull) (calendar_webhook : String) (fuel : Nat) :
    Eff Unit :=
  let startdatetime_iso := toString w.now
  let enddatetime_iso := toString (w.now + CALENDAR_DAYS_TO_CACHE * 86400)
  forEach users (fun user =>
    Eff.bind (odata_get w.eventPages
        ("https://graph.microsoft.com/v1.0/" ++ "users/" ++ user.id ++ "/calendarview?"
          ++ "startdatetime=" ++ startdatetime_iso ++ "&enddatetime=" ++ enddatetime_iso
          ++ "&select=id,subject,location,organizer,start,end,weblink,responsestatus,body,attendees,isCancelled")
        fuel) fun events =>
    if pyIsNone (some events) then Eff.log "Failed to get events"
    else
      Eff.bind (Eff.log ("Got " ++ toString events.length ++ " events")) fun _ =>
      forEach events (fun event => parse_event w event user.mail calendar_webhook))

/-! ## Notification correlator -/

def _handle_subscription_callback_value (w : World) (store : Store)
    (subscription hkey1 : String) (value : NotificationItem) : Eff Unit :=
  match pySplit value.clientState '^' with
  | [hkey0, mail, manager_mail] =>
    let hkey := rebuild_key hkey0 hkey1
    (match storeLookup store hkey with
     | none => Eff.log ("Received unexpected hkey " ++ hkey)
     | some globalstateentry =>
       Eff.bind (pyRsplitLast value.odataId) fun shortid =>
       if subscription == "messages" then
         if value.changeType == "deleted" then
           Eff.emit (Call.delete (globalstateentry.email_webhook ++ "/?id=" ++ shortid))
         else process_message w globalstateentry mail manager_mail value.odataId
       else if subscription == "events" then
         if value.changeType == "deleted" then
           Eff.emit (Call.delete (globalstateentry.calendar_webhook ++ "/?id=" ++ shortid))
         else process_event w globalstateentry mail value.odataId
       else Eff.raiseMW "Unknown subscription type")
  | _ => Eff.raise PyErr.valueError

/-- The callback route.  `validationToken` is the optional query parameter;
`items` is the `value` list of the parsed JSON body (the route is only
reached with such a body per the modelled scenario).  Only
`MiddlewareException` is caught per item. -/
def handle_subscription_callback (w : World) (store : Store) (subscription hkey1 : String)
    (validationToken : Option String) (items : List NotificationItem) : Eff HttpResponse :=
  match validationToken with
  | some tok => Eff.pure ⟨200, tok⟩
  | none =>
    Eff.bind (forEach items (fun value =>
        catchMW (_handle_subscription_callback_value w store subscription hkey1 value))) fun _ =>
    Eff.pure ⟨202, ""⟩

/-! ## Resync scheduler (trigger endpoint) -/

/-- `trigger_middleware`.  `store` is the current `globalstate`; the updated
store is returned with the response.  `authorization` and the two webhook
query parameters are the request inputs. -/
def trigger_middleware (w : World) (store : Store) (authorization : Option String)
    (calendar_webhook email_webhook : String) (fuel : Nat) : Eff (HttpResponse × Store) :=
  let _hkey := sha512_hexdigest (calendar_webhook ++ email_webhook)
  let hkey := derive_key calendar_webhook email_webhook
  let next_sync0 : Option Int := (storeLookup store _hkey).map (fun st => st.next_sync)
  let doSync : Bool :=
    match next_sync0 with
    | none => true
    | some t => decide (w.now ≥ t)
  Eff.bind
    (if doSync then
      Eff.bind (get_all_users w fuel) fun users =>
      Eff.bind (update_calendar w users calendar_webhook fuel) fun _ =>
      Eff.bind (wipe_subscriptions w fuel) fun _ =>
      Eff.bind (register_subscriptions w hkey.1 hkey.2 users calendar_webhook email_webhook)
        fun _ =>
      Eff.pure (w.now + HOURS_BETWEEN_FULLSYNC_AND_RESCUBSCRIBE * 3600)
    else Eff.pure (next_sync0.getD 0)) fun next_sync =>
  Eff.pure (⟨200, "\x7b\"status\": \"ok\"\x7d"⟩,
            storePut store _hkey ⟨authorization, calendar_webhook, email_webhook, next_sync⟩)

/-! ## src/application.py variant (differing leaves only) -/

namespace Az

def SUBSCRIPTION_CALLBACK_URL : String := "https://<app_name>.azurewebsites.net"

def GRAPH_API_URL : String := "https://graph.microsoft.com"

/-- `parse_event` of src/application.py: identical filter and enrichment,
but a single PUT instead of the five-iteration loop. -/
def parse_event (w : World) (event : EventData) (owner : Option String)
    (calendar_webhook : String) : Eff Unit :=
  if event.startTime < w.now - 1 * 86400
      ∨ event.startTime > w.now + CALENDAR_DAYS_TO_CACHE * 86400 then
    Eff.pure ()
  else
    let meeting_link := extract_meetinglink (event.locationDisplayName ++ "^" ++ event.bodyContent)
    let body : EvtPut := ⟨event, owner, meeting_link⟩
    Eff.bind (Eff.emit (Call.putEvt calendar_webhook body)) fun _ =>
      if w.putOk calendar_webhook then Eff.pure ()
      else Eff.log ("Failed to put to " ++ calendar_webhook)

/-- `process_message` of src/application.py: single PUT. -/
def process_message (w : World) (globalstateentry : StateRec)
    (mail manager_mail odata_id : String) : Eff Unit :=
  Eff.bind (odata_getone w.fetchMessage
      (Az.GRAPH_API_URL ++ "/v1.0/" ++ odata_id
        ++ "?$select=id,subject,from,toRecipients,importance,sentDateTime,webLink,isRead"))
    fun jsondata =>
    match jsondata with
    | none => Eff.raiseMW ("Failed to resolve message in process_message " ++ odata_id)
    | some j =>
      let is_from_manager : Bool := manager_mail == pyLower j.fromAddress
      if !is_from_manager && j.importance != "high" then Eff.pure ()
      else
        let body : MsgPut := ⟨j, mail, is_from_manager⟩
        Eff.bind (Eff.emit (Call.putMsg globalstateentry.email_webhook body)) fun _ =>
          if w.putOk globalstateentry.email_webhook then Eff.pure ()
          else Eff.log ("Failed to put to " ++ globalstateentry.email_webhook)

/-- `register_subscriptions` of src/application.py: users whose mail is
`None` are skipped with `continue`; the resource path has no trailing
slash. -/
def register_subscriptions (w : World) (hk0 hk1 : String) (users : List UserFull)
    (calendar_webhook email_webhook : String) : Eff Unit :=
  forEach users (fun user =>
    match user.mail with
    | none => Eff.pure ()
    | some mailv =>
      forEach ["messages", "events"] (fun subscription =>
        let data : SubRequest :=
          { changeType := "created,updated,deleted"
            notificationUrl := Az.SUBSCRIPTION_CALLBACK_URL ++ "/" ++ SUBSCRIPTION_CALLBACK_PATH
                                ++ "/" ++ subscription ++ "/" ++ hk1
            resource := "/users/" ++ user.id ++ "/" ++ subscription
            expirationTime := w.now + HOURS_TO_SUBSCRIBE * 3600
            clientState := hk0 ++ "^" ++ mailv ++ "^" ++ user.manager_mail }
        Eff.bind (Eff.emit (Call.postSub (Az.GRAPH_API_URL ++ "/v1.0/subscriptions") data))
          fun _ =>
          if w.postOk data then Eff.pure ()
          else Eff.log ("Unable to subscribe " ++ mailv ++ " for " ++ subscription)))

end Az

/-! ## Reasoning toolkit for Eff -/

theorem Eff.eta {α : Type} (x : Eff α) : x = ⟨x.res, x.calls, x.logs⟩ := rfl

theorem Eff.bind_of_ok {α β : Type} {x : Eff α} {a : α} (h : x.res = Except.ok a)
    (f : α → Eff β) :
    Eff.bind x f = ⟨(f a).res, x.calls ++ (f a).calls, x.logs ++ (f a).logs⟩ := by
  unfold Eff.bind; rw [h]

theorem Eff.bind_of_error {α β : Type} {x : Eff α} {e : PyErr} (h : x.res = Except.error e)
    (f : α → Eff β) : Eff.bind x f = ⟨Except.error e, x.calls, x.logs⟩ := by
  unfold Eff.bind; rw [h]

theorem Eff.res_bind_of_ok {α β : Type} {x : Eff α} {a : α} (h : x.res = Except.ok a)
    (f : α → Eff β) : (Eff.bind x f).res = (f a).res := by
  rw [Eff.bind_of_ok h]

/-- A loop body that always succeeds makes the loop succeed, with the calls
and logs being the concatenation of the per-element ones. -/
theorem forEach_of_ok {α : Type} {f : α → Eff Unit} :
    ∀ {l : List α}, (∀ a ∈ l, (f a).res = Except.ok ()) →
      forEach l f = ⟨Except.ok (), concatMap l (fun a => (f a).calls),
                     concatMap l (fun a => (f a).logs)⟩ := by
  intro l
  induction l with
  | nil => intro _; rfl
  | cons a as ih =>
    intro h
    have ha : (f a).res = Except.ok () := h a (List.mem_cons_self a as)
    have has : ∀ b ∈ as, (f b).res = Except.ok () := fun b hb => h b (List.mem_cons_of_mem a hb)
    show Eff.bind (f a) (fun _ => forEach as f) = _
    rw [Eff.bind_of_ok ha, ih has]
    simp [concatMap]

theorem forEach_res_ok {α : Type} {f : α → Eff Unit} {l : List α}
    (h : ∀ a ∈ l, (f a).res = Except.ok ()) : (forEach l f).res = Except.ok () := by
  rw [forEach_of_ok h]

theorem mapEff_of_ok {α β : Type} {f : α → Eff β} :
    ∀ {l : List α}, (∀ a ∈ l, ∃ b, (f a).res = Except.ok b) →
      ∃ bs, (mapEff l f).res = Except.ok bs := by
  intro l
  induction l with
  | nil => intro _; exact ⟨[], rfl⟩
  | cons a as ih =>
    intro h
    obtain ⟨b, hb⟩ := h a (List.mem_cons_self a as)
    obtain ⟨bs, hbs⟩ := ih (fun x hx => h x (List.mem_cons_of_mem a hx))
    refine ⟨b :: bs, ?_⟩
    show (Eff.bind (f a) _).res = _
    rw [Eff.res_bind_of_ok hb, Eff.res_bind_of_ok hbs]
    rfl

theorem catchMW_of_ok {x : Eff Unit} (h : x.res = Except.ok ()) : catchMW x = x := by
  unfold catchMW; rw [h]

theorem catchMW_of_mw {x : Eff Unit} {m : String} (h : x.res = Except.error (PyErr.middleware m)) :
    catchMW x = ⟨Except.ok (), x.calls, x.logs⟩ := by
  unfold catchMW; rw [h]

/-! ## Claim C3: rebuild after derive, and order sensitivity -/

theorem pyTake_append_pyDrop (s : String) (n : Nat) : pyTake s n ++ pyDrop s n = s := by
  cases s with
  | mk data =>
    show String.append _ _ = _
    simp [pyTake, pyDrop, String.append]

theorem derive_key_congr {a b c d : String} (h : a ++ b = c ++ d) :
    derive_key a b = derive_key c d := by
  simp only [derive_key]
  rw [h]

/-- C3 counterexample: the claim asserts `derive(a,b) ≠ derive(b,a)` for every
pair with `a ≠ b`; at `a = "x"`, `b = "xx"` the two concatenations coincide
(`"xxx"`), so the two derived keys are equal although `a ≠ b`. -/
theorem claim_C3_counterexample :
    ("x" : String) ≠ "xx" ∧ derive_key "x" "xx" = derive_key "xx" "x" := by
  constructor
  · decide
  · exact derive_key_congr (by decide)

set_option maxRecDepth 400000 in
/-- C3 (amended): concatenating the derived prefix and suffix always yields
the full hex SHA-512 digest of `a + b`; the derived key depends on the pair
only through the concatenation `a + b`, so swapping the URLs changes the key
exactly when it changes the digest of the concatenation — in particular the
keys for a concrete distinct pair of URLs differ, but `derive(a,b) =
derive(b,a)` does occur for `a ≠ b` with `a + b = b + a`. -/
theorem claim_C3_theorem :
    (∀ a b : String,
        rebuild_key (derive_key a b).1 (derive_key a b).2 = sha512_hexdigest (a ++ b))
    ∧ (∀ a b : String, a ++ b = b ++ a → derive_key a b = derive_key b a)
    ∧ derive_key "https://cal.example/hook" "https://mail.example/hook"
        ≠ derive_key "https://mail.example/hook" "https://cal.example/hook" := by
  refine ⟨?_, ?_, ?_⟩
  · intro a b
    simp only [derive_key, rebuild_key]
    exact pyTake_append_pyDrop _ 32
  · intro a b h
    exact derive_key_congr h
  · decide

/-- C3 witness: instance of the amended theorem at concrete inputs. -/
theorem claim_C3_witness :
    rebuild_key (derive_key "https://a" "https://b").1 (derive_key "https://a" "https://b").2
      = sha512_hexdigest ("https://a" ++ "https://b")
    ∧ derive_key "x" "xx" = derive_key "xx" "x" :=
  ⟨claim_C3_theorem.1 "https://a" "https://b",
   claim_C3_theorem.2.1 "x" "xx" (by decide)⟩

/-! ## Claim C4: where the digest is split -/

theorem hexWord16_length (x : Nat) : (hexWord16 x).length = 16 := by
  simp [hexWord16]

theorem sha512_hexdigest_length (s : String) : (sha512_hexdigest s).length = 128 := by
  simp [sha512_hexdigest, sha512_words, String.length, hexWord16_length]

theorem pyTake_length (s : String) (n : Nat) : (pyTake s n).length = min n s.length := by
  cases s with
  | mk data => simp [pyTake, String.length]

theorem pyDrop_length (s : String) (n : Nat) : (pyDrop s n).length = s.length - n := by
  cases s with
  | mk data => simp [pyDrop, String.length]

/-- C4 counterexample: the claim says the key prefix is the first half (64 hex
characters) of the digest; at the concrete input pair `("a", "b")` the code
takes only the first 32 characters. -/
theorem claim_C4_counterexample :
    (derive_key "a" "b").1.length = 32 ∧ (derive_key "a" "b").1.length ≠ 64 := by
  have h : (derive_key "a" "b").1.length = 32 := by
    simp only [derive_key]
    rw [pyTake_length, sha512_hexdigest_length]
    decide
  exact ⟨h, by rw [h]; decide⟩

/-- C4 (amended): the digest is 128 hex characters, but the code splits it at
index 32, not at the midpoint: the prefix (`_hkey[0:32]`, carried in the
clientState) is 32 characters and the suffix (`_hkey[32:]`, carried in the
notification URL) is the remaining 96 characters. -/
theorem claim_C4_theorem (a b : String) :
    (sha512_hexdigest (a ++ b)).length = 128
    ∧ (derive_key a b).1.length = 32
    ∧ (derive_key a b).2.length = 96 := by
  refine ⟨sha512_hexdigest_length _, ?_, ?_⟩
  · simp only [derive_key]
    rw [pyTake_length, sha512_hexdigest_length]
    decide
  · simp only [derive_key]
    rw [pyDrop_length, sha512_hexdigest_length]

/-! ## OData evaluation lemmas -/

theorem odata_getone_res {α : Type} (oracle : String → Option α) (url : String) :
    (odata_getone oracle url).res = Except.ok (oracle url) := by
  unfold odata_getone
  cases h : oracle url <;> simp [Eff.bind, Eff.emit, Eff.log, Eff.pure, h]

theorem odata_getone_of_none {α : Type} {oracle : String → Option α} {url : String}
    (h : oracle url = none) :
    odata_getone oracle url
      = ⟨Except.ok none, [Call.get url], ["Fetch url " ++ url ++ " failed"]⟩ := by
  unfold odata_getone
  simp [Eff.bind, Eff.emit, Eff.log, Eff.pure, h]

theorem odata_getone_of_some {α : Type} {oracle : String → Option α} {url : String} {v : α}
    (h : oracle url = some v) :
    odata_getone oracle url = ⟨Except.ok (some v), [Call.get url], []⟩ := by
  unfold odata_getone
  simp [Eff.bind, Eff.emit, Eff.log, Eff.pure, h]

theorem odata_getGo_res_ok {α : Type} (pages : String → Option (Page α)) :
    ∀ (fuel : Nat) (u : Option String) (acc : List α),
      ∃ l, (odata_getGo pages fuel u acc).res = Except.ok l := by
  intro fuel
  induction fuel with
  | zero =>
    intro u acc
    cases u <;> exact ⟨acc, rfl⟩
  | succ n ih =>
    intro u acc
    cases u with
    | none => exact ⟨acc, rfl⟩
    | some url =>
      show ∃ l, (Eff.bind (odata_getone pages url) _).res = _
      rw [Eff.res_bind_of_ok (odata_getone_res pages url)]
      cases h : pages url with
      | none => exact ⟨acc, rfl⟩
      | some pg => exact ih pg.nextLink (acc ++ pg.value)

theorem odata_get_res_ok {α : Type} (pages : String → Option (Page α)) (url : String)
    (fuel : Nat) : ∃ l, (odata_get pages url fuel).res = Except.ok l :=
  odata_getGo_res_ok pages fuel (some url) []

theorem get_all_users_ok (w : World) (fuel : Nat) :
    ∃ us, (get_all_users w fuel).res = Except.ok us := by
  obtain ⟨l, hl⟩ := odata_get_res_ok w.userPages (GRAPH_API_URL ++ "/v1.0/users") fuel
  unfold get_all_users
  rw [Eff.res_bind_of_ok hl]
  have hchk : (if pyIsNone (some l) = true then Eff.raiseMW "Failed to get users"
               else Eff.pure ()).res = Except.ok () := by
    simp [pyIsNone, Eff.pure]
  rw [Eff.res_bind_of_ok hchk]
  apply mapEff_of_ok
  intro u _
  rw [Eff.res_bind_of_ok (odata_getone_res w.managerObj _)]
  cases h : w.managerObj (GRAPH_API_URL ++ "/v1.0/users/" ++ u.id ++ "/manager?$select=mail") with
  | none => exact ⟨_, rfl⟩
  | some m => cases m <;> exact ⟨_, rfl⟩

/-- Default-valued projection of a successful result. -/
def effValD {α : Type} (x : Eff α) (d : α) : α :=
  match x.res with
  | Except.ok a => a
  | Except.error _ => d

/-- The user list a resync works with (the value `get_all_users` returns). -/
def usersVal (w : World) (fuel : Nat) : List UserFull := effValD (get_all_users w fuel) []

theorem get_all_users_res (w : World) (fuel : Nat) :
    (get_all_users w fuel).res = Except.ok (usersVal w fuel) := by
  obtain ⟨us, h⟩ := get_all_users_ok w fuel
  rw [h]
  simp [usersVal, effValD, h]

theorem Eff.res_bind_of_error {α β : Type} {x : Eff α} {e : PyErr} (h : x.res = Except.error e)
    (f : α → Eff β) : (Eff.bind x f).res = Except.error e := by
  rw [Eff.bind_of_error h]

theorem forEach_err_shape {α : Type} {f : α → Eff Unit} (P : PyErr → Prop) :
    ∀ {l : List α}, (∀ a ∈ l, (f a).res = Except.ok () ∨ ∃ e, (f a).res = Except.error e ∧ P e) →
      (forEach l f).res = Except.ok () ∨ ∃ e, (forEach l f).res = Except.error e ∧ P e := by
  intro l
  induction l with
  | nil => intro _; exact Or.inl rfl
  | cons a as ih =>
    intro h
    simp only [forEach]
    rcases h a (List.mem_cons_self a as) with ha | ⟨e, he, hP⟩
    · rcases ih (fun b hb => h b (List.mem_cons_of_mem a hb)) with h2 | ⟨e2, he2, hP2⟩
      · exact Or.inl (by rw [Eff.res_bind_of_ok ha]; exact h2)
      · exact Or.inr ⟨e2, by rw [Eff.res_bind_of_ok ha]; exact he2, hP2⟩
    · exact Or.inr ⟨e, Eff.res_bind_of_error he _, hP⟩

theorem wipe_subscriptions_shape (w : World) (fuel : Nat) :
    (wipe_subscriptions w fuel).res = Except.ok ()
    ∨ ∃ e, (wipe_subscriptions w fuel).res = Except.error e
        ∧ ∃ id, e = PyErr.middleware ("Failed to delete subscription " ++ id) := by
  obtain ⟨l, hl⟩ := odata_get_res_ok w.subPages
    (GRAPH_API_URL ++ "/v1.0/subscriptions/?" ++ "select=id,notificationUrl") fuel
  unfold wipe_subscriptions
  rw [Eff.res_bind_of_ok hl]
  have hchk : (if pyIsNone (some l) = true then Eff.raiseMW "Failed to wipe subscriptions"
               else Eff.pure ()).res = Except.ok () := by
    simp [pyIsNone, Eff.pure]
  rw [Eff.res_bind_of_ok hchk]
  apply forEach_err_shape
  intro s _
  by_cases hs : pyStartsWith s.notificationUrl SUBSCRIPTION_CALLBACK_URL = true
  · simp only [hs, if_true]
    rw [Eff.res_bind_of_ok (rfl : (Eff.emit (Call.delete (GRAPH_API_URL ++ "/v1.0/subscriptions/" ++ s.id))).res = Except.ok ())]
    by_cases hd : w.deleteOk (GRAPH_API_URL ++ "/v1.0/subscriptions/" ++ s.id) = true
    · simp [hd, Eff.pure]
    · simp only [hd, if_false, Bool.false_eq_true]
      exact Or.inr ⟨_, rfl, s.id, rfl⟩
  · simp only [hs, if_false, Bool.false_eq_true]
    exact Or.inl rfl

/-! ## Claim C10: odata_get totality makes the None-checks dead -/

theorem delete_msg_ne_wipe_msg (id : String) :
    "Failed to delete subscription " ++ id ≠ "Failed to wipe subscriptions" := by
  intro h
  have hl := congrArg String.length h
  rw [String.length_append] at hl
  have h30 : ("Failed to delete subscription " : String).length = 30 := by decide
  have h28 : ("Failed to wipe subscriptions" : String).length = 28 := by decide
  omega

/-- C10: `odata_get` always returns (the accumulated) list — it can never
produce a Python `None` — even when the very first page fetch fails, in which
case it returns the empty list; hence `get_all_users` never raises its
"Failed to get users" fatal error, `wipe_subscriptions` never raises its
"Failed to wipe subscriptions" fatal error (its only failures are individual
delete failures), and a failed listing is observationally identical to an
empty listing (same result, same calls). -/
theorem claim_C10_theorem :
    (∀ (α : Type) (pages : String → Option (Page α)) (url : String) (fuel : Nat),
        ∃ l, (odata_get pages url fuel).res = Except.ok l)
    ∧ (∀ (α : Type) (pages : String → Option (Page α)) (url : String) (fuel : Nat),
        pages url = none → (odata_get pages url (fuel + 1)).res = Except.ok ([] : List α))
    ∧ (∀ (w : World) (fuel : Nat),
        (get_all_users w fuel).res ≠ Except.error (PyErr.middleware "Failed to get users"))
    ∧ (∀ (w : World) (fuel : Nat),
        (wipe_subscriptions w fuel).res
          ≠ Except.error (PyErr.middleware "Failed to wipe subscriptions"))
    ∧ (∀ (α : Type) (pagesF pagesE : String → Option (Page α)) (url : String) (fuel : Nat),
        pagesF url = none → pagesE url = some ⟨[], none⟩ →
          (odata_get pagesF url fuel).res = (odata_get pagesE url fuel).res
          ∧ (odata_get pagesF url fuel).calls = (odata_get pagesE url fuel).calls) := by
  refine ⟨?_, ?_, ?_, ?_, ?_⟩
  · intro α pages url fuel
    exact odata_get_res_ok pages url fuel
  · intro α pages url fuel h
    show (Eff.bind (odata_getone pages url) _).res = _
    rw [Eff.res_bind_of_ok (odata_getone_res pages url), h]
    rfl
  · intro w fuel h
    obtain ⟨us, hok⟩ := get_all_users_ok w fuel
    rw [hok] at h
    exact Except.noConfusion h
  · intro w fuel h
    rcases wipe_subscriptions_shape w fuel with hok | ⟨e, he, id, hid⟩
    · rw [hok] at h
      exact Except.noConfusion h
    · rw [he] at h
      have : e = PyErr.middleware "Failed to wipe subscriptions" := by
        injection h
      rw [hid] at this
      exact delete_msg_ne_wipe_msg id (by injection this)
  · intro α pagesF pagesE url fuel hF hE
    cases fuel with
    | zero => exact ⟨rfl, rfl⟩
    | succ n =>
      show (Eff.bind (odata_getone pagesF url) _).res = (Eff.bind (odata_getone pagesE url) _).res
        ∧ (Eff.bind (odata_getone pagesF url) _).calls
            = (Eff.bind (odata_getone pagesE url) _).calls
      rw [Eff.bind_of_ok (odata_getone_res pagesF url), Eff.bind_of_ok (odata_getone_res pagesE url),
          odata_getone_of_none hF, odata_getone_of_some hE, hF, hE]
      refine ⟨?_, ?_⟩ <;> simp [odata_getGo, Eff.pure]

/-- C10 witness: the theorem applied at a concrete failing world. -/
theorem claim_C10_witness :
    (odata_get (fun _ => (none : Option (Page SubRec))) "https://u" 1).res = Except.ok []
    ∧ (odata_get (fun _ => (none : Option (Page SubRec))) "https://u" 3).res
        = (odata_get (fun _ => some ({ value := [], nextLink := none } : Page SubRec))
              "https://u" 3).res :=
  ⟨claim_C10_theorem.2.1 SubRec (fun _ => none) "https://u" 0 rfl,
   (claim_C10_theorem.2.2.2.2 SubRec (fun _ => none)
      (fun _ => some { value := [], nextLink := none }) "https://u" 3 rfl rfl).1⟩

/-! ## Claim C6: event recency filter and cache PUTs -/

theorem forEach_emit (c : Call) :
    ∀ (l : List Nat), forEach l (fun _ => Eff.emit c)
      = ⟨Except.ok (), List.replicate l.length c, []⟩ := by
  intro l
  induction l with
  | nil => rfl
  | cons a as ih =>
    show Eff.bind (Eff.emit c) (fun _ => forEach as (fun _ => Eff.emit c)) = _
    rw [ih]
    rfl

/-- A concrete world in which every listing/fetch fails and every push
succeeds. -/
def wEmpty : World :=
  { now := 0
    userPages := fun _ => none
    subPages := fun _ => none
    eventPages := fun _ => none
    managerObj := fun _ => none
    fetchMessage := fun _ => none
    fetchEvent := fun _ => none
    putOk := fun _ => true
    deleteOk := fun _ => true
    postOk := fun _ => true }

/-- C6 counterexample: for a concrete event 2 hours in the future (inside the
cache window) the app.py event path issues five PUTs to the calendar cache
webhook, not exactly one as the claim states. -/
theorem claim_C6_counterexample :
    (parse_event wEmpty ⟨"id1", 7200, "Room", "body"⟩ (some "owner") "https://cal").calls.length = 5
    ∧ (5 : Nat) ≠ 1 := by
  constructor
  · decide
  · decide

/-- C6 (amended): an event whose start is more than 1 day in the past or more
than 8 days in the future produces zero calls in both variants; an event
inside the window produces PUTs to the calendar cache webhook whose body
carries the owner and the meeting link extracted from
`locationDisplayName + "^" + body content` — exactly one PUT in the
application.py variant, and five identical such PUTs in the app.py variant
(its delivery workaround loop). -/
theorem claim_C6_theorem (w : World) (ev : EventData) (owner : Option String) (cal : String) :
    ((ev.startTime < w.now - 1 * 86400 ∨ ev.startTime > w.now + CALENDAR_DAYS_TO_CACHE * 86400) →
        (parse_event w ev owner cal).calls = [] ∧ (Az.parse_event w ev owner cal).calls = [])
    ∧ (¬ (ev.startTime < w.now - 1 * 86400 ∨ ev.startTime > w.now + CALENDAR_DAYS_TO_CACHE * 86400) →
        (Az.parse_event w ev owner cal).calls
          = [Call.putEvt cal ⟨ev, owner,
               extract_meetinglink (ev.locationDisplayName ++ "^" ++ ev.bodyContent)⟩]
        ∧ (parse_event w ev owner cal).calls
          = List.replicate 5 (Call.putEvt cal ⟨ev, owner,
               extract_meetinglink (ev.locationDisplayName ++ "^" ++ ev.bodyContent)⟩)) := by
  constructor
  · intro h
    constructor
    · unfold parse_event
      rw [if_pos h]
      rfl
    · unfold Az.parse_event
      rw [if_pos h]
      rfl
  · intro h
    constructor
    · unfold Az.parse_event
      rw [if_neg h]
      cases hp : w.putOk cal <;>
        simp [Eff.bind, Eff.emit, Eff.log, Eff.pure, hp]
    · unfold parse_event
      rw [if_neg h]
      cases hp : w.putOk cal <;>
        simp [forEach_emit, Eff.bind, Eff.log, Eff.pure, hp]

/-- C6 witness: the amended theorem applied at concrete events on both sides
of the window. -/
theorem claim_C6_witness :
    ((parse_event wEmpty ⟨"e1", 864000, "R", "b"⟩ (some "o") "https://cal").calls = []
      ∧ (Az.parse_event wEmpty ⟨"e1", 864000, "R", "b"⟩ (some "o") "https://cal").calls = [])
    ∧ (Az.parse_event wEmpty ⟨"e1", 7200, "R", "b"⟩ (some "o") "https://cal").calls
        = [Call.putEvt "https://cal"
             ⟨⟨"e1", 7200, "R", "b"⟩, some "o",
              extract_meetinglink (("R" : String) ++ "^" ++ "b")⟩] :=
  ⟨(claim_C6_theorem wEmpty ⟨"e1", 864000, "R", "b"⟩ (some "o") "https://cal").1
     (Or.inr (by decide)),
   ((claim_C6_theorem wEmpty ⟨"e1", 7200, "R", "b"⟩ (some "o") "https://cal").2
     (by decide)).1⟩

/-! ## Claim C7: message cache-worthiness filter -/

/-- C7 (amended): with `is_from_manager` computed as the code computes it —
the raw `managerMail` from clientState compared for equality against the
lower-cased sender address (case-insensitive only in the sender) — a fetched
message that is not from the manager and has `importance != high` produces no
call to the email cache webhook (the only call is the detail GET); otherwise
the message, augmented with `owner` and `is_from_manager`, is PUT to the
email cache webhook (five times in app.py, once in application.py). -/
theorem claim_C7_theorem (w : World) (entry : StateRec) (mail manager_mail odata_id : String)
    (j : MessageData)
    (hf : w.fetchMessage (GRAPH_API_URL ++ "/v1.0/" ++ odata_id
        ++ "?$select=id,subject,from,toRecipients,importance,sentDateTime,webLink,isRead")
        = some j)
    (hfAz : w.fetchMessage (Az.GRAPH_API_URL ++ "/v1.0/" ++ odata_id
        ++ "?$select=id,subject,from,toRecipients,importance,sentDateTime,webLink,isRead")
        = some j) :
    ((manager_mail == pyLower j.fromAddress) = false → j.importance ≠ "high" →
      (process_message w entry mail manager_mail odata_id).calls
          = [Call.get (GRAPH_API_URL ++ "/v1.0/" ++ odata_id
              ++ "?$select=id,subject,from,toRecipients,importance,sentDateTime,webLink,isRead")]
        ∧ (Az.process_message w entry mail manager_mail odata_id).calls
          = [Call.get (Az.GRAPH_API_URL ++ "/v1.0/" ++ odata_id
              ++ "?$select=id,subject,from,toRecipients,importance,sentDateTime,webLink,isRead")])
    ∧ ((manager_mail == pyLower j.fromAddress) = true ∨ j.importance = "high" →
      (process_message w entry mail manager_mail odata_id).calls
          = Call.get (GRAPH_API_URL ++ "/v1.0/" ++ odata_id
              ++ "?$select=id,subject,from,toRecipients,importance,sentDateTime,webLink,isRead")
            :: List.replicate 5 (Call.putMsg entry.email_webhook
                 ⟨j, mail, manager_mail == pyLower j.fromAddress⟩)
        ∧ (Az.process_message w entry mail manager_mail odata_id).calls
          = [Call.get (Az.GRAPH_API_URL ++ "/v1.0/" ++ odata_id
              ++ "?$select=id,subject,from,toRecipients,importance,sentDateTime,webLink,isRead"),
             Call.putMsg entry.email_webhook ⟨j, mail, manager_mail == pyLower j.fromAddress⟩]) := by
  have h1 := odata_getone_of_some hf
  have h1Az := odata_getone_of_some hfAz
  constructor
  · intro hm hi
    constructor
    · unfold process_message
      rw [h1]
      simp [Eff.bind, Eff.pure, hm, hi]
    · unfold Az.process_message
      rw [h1Az]
      simp [Eff.bind, Eff.pure, hm, hi]
  · intro hor
    have hcond : (!(manager_mail == pyLower j.fromAddress) && j.importance != "high") = false := by
      rcases hor with hm | hi
      · simp [hm]
      · simp [hi]
    constructor
    · unfold process_message
      rw [h1]
      cases hp : w.putOk entry.email_webhook <;>
        simp [Eff.bind, Eff.pure, Eff.log, hcond, forEach_emit, hp]
    · unfold Az.process_message
      rw [h1Az]
      cases hp : w.putOk entry.email_webhook <;>
        simp [Eff.bind, Eff.pure, Eff.log, Eff.emit, hcond, hp]

def msgLow : MessageData := ⟨"m1", "boss@x.com", "normal"⟩

def wMsgCx : World := { wEmpty with fetchMessage := fun _ => some msgLow }

/-- C7 counterexample: managerMail `"BOSS@X.COM"` and sender `"boss@x.com"`
are case-insensitively equal, and importance is not high, so the claim
mandates a PUT to the email cache webhook; the code compares the raw
managerMail against the lower-cased sender, treats the message as not from
the manager, and makes no webhook call (the only call is the detail GET). -/
theorem claim_C7_counterexample :
    pyLower "BOSS@X.COM" = pyLower "boss@x.com"
    ∧ msgLow.importance ≠ "high"
    ∧ (process_message wMsgCx ⟨none, "https://cal", "https://mail", 0⟩
        "owner@x.com" "BOSS@X.COM" "users/u/messages/m1").calls
          = [Call.get (GRAPH_API_URL ++ "/v1.0/" ++ "users/u/messages/m1"
              ++ "?$select=id,subject,from,toRecipients,importance,sentDateTime,webLink,isRead")] := by
  refine ⟨by decide, by decide, ?_⟩
  decide

/-- C7 witness: both arms of the amended theorem at concrete inputs. -/
theorem claim_C7_witness :
    (process_message wMsgCx ⟨none, "https://cal", "https://mail", 0⟩
        "o" "nomatch@x.com" "users/u/messages/m1").calls
      = [Call.get (GRAPH_API_URL ++ "/v1.0/" ++ "users/u/messages/m1"
          ++ "?$select=id,subject,from,toRecipients,importance,sentDateTime,webLink,isRead")]
    ∧ (Az.process_message wMsgCx ⟨none, "https://cal", "https://mail", 0⟩
        "o" "boss@x.com" "users/u/messages/m1").calls
      = [Call.get (Az.GRAPH_API_URL ++ "/v1.0/" ++ "users/u/messages/m1"
          ++ "?$select=id,subject,from,toRecipients,importance,sentDateTime,webLink,isRead"),
         Call.putMsg "https://mail" ⟨msgLow, "o", true⟩] :=
  ⟨((claim_C7_theorem wMsgCx ⟨none, "https://cal", "https://mail", 0⟩
      "o" "nomatch@x.com" "users/u/messages/m1" msgLow rfl rfl).1
      (by decide) (by decide)).1,
   ((claim_C7_theorem wMsgCx ⟨none, "https://cal", "https://mail", 0⟩
      "o" "boss@x.com" "users/u/messages/m1" msgLow rfl rfl).2
      (Or.inl (by decide))).2⟩

/-! ## Claim C8: subscription registration -/

theorem res_ite_pure_log (c : Prop) [Decidable c] (msg : String) :
    (if c then Eff.pure () else Eff.log msg).res = Except.ok () := by
  split <;> rfl

theorem calls_ite_pure_log (c : Prop) [Decidable c] (msg : String) :
    (if c then Eff.pure () else Eff.log msg).calls = [] := by
  split <;> rfl

theorem logs_ite_pure_log (c : Prop) [Decidable c] (msg : String) :
    (if c then Eff.pure () else Eff.log msg).logs = if c then [] else [msg] := by
  split <;> rfl

theorem post_step (w : World) (url : String) (d : SubRequest) (msg : String) :
    Eff.bind (Eff.emit (Call.postSub url d))
        (fun _ => if w.postOk d = true then Eff.pure () else Eff.log msg)
      = ⟨Except.ok (), [Call.postSub url d], if w.postOk d = true then [] else [msg]⟩ := by
  cases hp : w.postOk d <;> simp [Eff.bind, Eff.emit, Eff.pure, Eff.log, hp]

/-- The subscription request the spec describes for the app.py variant,
written out for comparison with what the code posts: change types
created+updated+deleted, notification URL = own base + callback path +
subscription kind + key suffix, expiration = now + 24h, clientState =
key prefix ^ owner mail ^ manager mail. -/
def appSubRequest (w : World) (hk0 hk1 : String) (u : UserFull) (m kind : String) : SubRequest :=
  { changeType := "created,updated,deleted"
    notificationUrl := SUBSCRIPTION_CALLBACK_URL ++ "/" ++ SUBSCRIPTION_CALLBACK_PATH
                        ++ "/" ++ kind ++ "/" ++ hk1
    resource := "/users/" ++ u.id ++ "/" ++ kind ++ "/"
    expirationTime := w.now + 24 * 3600
    clientState := hk0 ++ "^" ++ m ++ "^" ++ u.manager_mail }

/-- Same for the application.py variant (its own base URL; resource path
without the trailing slash). -/
def azSubRequest (w : World) (hk0 hk1 : String) (u : UserFull) (m kind : String) : SubRequest :=
  { changeType := "created,updated,deleted"
    notificationUrl := Az.SUBSCRIPTION_CALLBACK_URL ++ "/" ++ SUBSCRIPTION_CALLBACK_PATH
                        ++ "/" ++ kind ++ "/" ++ hk1
    resource := "/users/" ++ u.id ++ "/" ++ kind
    expirationTime := w.now + 24 * 3600
    clientState := hk0 ++ "^" ++ m ++ "^" ++ u.manager_mail }

theorem register_app_body (w : World) (hk0 hk1 : String) (cal email : String) (u : UserFull)
    (m : String) (hm : u.mail = some m) :
    register_subscriptions w hk0 hk1 [u] cal email
      = ⟨Except.ok (),
         [Call.postSub (GRAPH_API_URL ++ "/v1.0/subscriptions") (appSubRequest w hk0 hk1 u m "messages"),
          Call.postSub (GRAPH_API_URL ++ "/v1.0/subscriptions") (appSubRequest w hk0 hk1 u m "events")],
         (if w.postOk (appSubRequest w hk0 hk1 u m "messages") = true then []
          else ["Unable to subscribe " ++ m ++ " for " ++ "messages"])
           ++ ((if w.postOk (appSubRequest w hk0 hk1 u m "events") = true then []
                else ["Unable to subscribe " ++ m ++ " for " ++ "events"]) ++ [])⟩ := by
  unfold register_subscriptions
  simp only [forEach, hm]
  rw [post_step, post_step]
  simp [Eff.bind, Eff.pure, appSubRequest, HOURS_TO_SUBSCRIBE]

theorem register_az_body (w : World) (hk0 hk1 : String) (cal email : String) (u : UserFull)
    (m : String) (hm : u.mail = some m) :
    Az.register_subscriptions w hk0 hk1 [u] cal email
      = ⟨Except.ok (),
         [Call.postSub (Az.GRAPH_API_URL ++ "/v1.0/subscriptions") (azSubRequest w hk0 hk1 u m "messages"),
          Call.postSub (Az.GRAPH_API_URL ++ "/v1.0/subscriptions") (azSubRequest w hk0 hk1 u m "events")],
         (if w.postOk (azSubRequest w hk0 hk1 u m "messages") = true then []
          else ["Unable to subscribe " ++ m ++ " for " ++ "messages"])
           ++ ((if w.postOk (azSubRequest w hk0 hk1 u m "events") = true then []
                else ["Unable to subscribe " ++ m ++ " for " ++ "events"]) ++ [])⟩ := by
  unfold Az.register_subscriptions
  simp only [forEach, hm]
  rw [post_step, post_step]
  simp [Eff.bind, Eff.pure, azSubRequest, HOURS_TO_SUBSCRIBE]

theorem forEach_cons_split {α : Type} (f : α → Eff Unit) (a : α) (l : List α) :
    forEach (a :: l) f = Eff.bind (forEach [a] f) (fun _ => forEach l f) := by
  show Eff.bind (f a) (fun _ => forEach l f)
    = Eff.bind (Eff.bind (f a) (fun _ => Eff.pure ())) (fun _ => forEach l f)
  cases h : (f a).res <;> simp [Eff.bind, Eff.pure, h]

theorem register_app_cons (w : World) (hk0 hk1 : String) (cal email : String) (u : UserFull)
    (us : List UserFull) :
    register_subscriptions w hk0 hk1 (u :: us) cal email
      = Eff.bind (register_subscriptions w hk0 hk1 [u] cal email)
          (fun _ => register_subscriptions w hk0 hk1 us cal email) := by
  unfold register_subscriptions
  exact forEach_cons_split _ u us

theorem register_az_cons (w : World) (hk0 hk1 : String) (cal email : String) (u : UserFull)
    (us : List UserFull) :
    Az.register_subscriptions w hk0 hk1 (u :: us) cal email
      = Eff.bind (Az.register_subscriptions w hk0 hk1 [u] cal email)
          (fun _ => Az.register_subscriptions w hk0 hk1 us cal email) := by
  unfold Az.register_subscriptions
  exact forEach_cons_split _ u us

theorem concatMap_nil {α β : Type} (f : α → List β) : concatMap [] f = [] := rfl

theorem concatMap_cons {α β : Type} (f : α → List β) (a : α) (l : List α) :
    concatMap (a :: l) f = f a ++ concatMap l f := by
  simp [concatMap]

theorem register_app_spec (w : World) (hk0 hk1 : String) (cal email : String) :
    ∀ (users : List UserFull), (∀ u ∈ users, u.mail ≠ none) →
      (register_subscriptions w hk0 hk1 users cal email).res = Except.ok ()
      ∧ (register_subscriptions w hk0 hk1 users cal email).calls
          = concatMap users (fun u =>
              [Call.postSub (GRAPH_API_URL ++ "/v1.0/subscriptions")
                 (appSubRequest w hk0 hk1 u (u.mail.getD "") "messages"),
               Call.postSub (GRAPH_API_URL ++ "/v1.0/subscriptions")
                 (appSubRequest w hk0 hk1 u (u.mail.getD "") "events")]) := by
  intro users
  induction users with
  | nil => intro _; exact ⟨rfl, rfl⟩
  | cons u us ih =>
    intro h
    have hm0 : u.mail ≠ none := h u (List.mem_cons_self u us)
    obtain ⟨m, hm⟩ : ∃ m, u.mail = some m := by
      cases hmc : u.mail with
      | none => exact absurd hmc hm0
      | some m => exact ⟨m, rfl⟩
    obtain ⟨ih1, ih2⟩ := ih (fun x hx => h x (List.mem_cons_of_mem u hx))
    rw [register_app_cons, register_app_body w hk0 hk1 cal email u m hm,
        Eff.bind_of_ok (rfl : (⟨Except.ok (), _, _⟩ : Eff Unit).res = Except.ok ())]
    refine ⟨ih1, ?_⟩
    show _ ++ (register_subscriptions w hk0 hk1 us cal email).calls = _
    rw [ih2, concatMap_cons]
    simp [hm]

theorem register_az_spec (w : World) (hk0 hk1 : String) (cal email : String) :
    ∀ (users : List UserFull), (∀ u ∈ users, u.mail ≠ none) →
      (Az.register_subscriptions w hk0 hk1 users cal email).res = Except.ok ()
      ∧ (Az.register_subscriptions w hk0 hk1 users cal email).calls
          = concatMap users (fun u =>
              [Call.postSub (Az.GRAPH_API_URL ++ "/v1.0/subscriptions")
                 (azSubRequest w hk0 hk1 u (u.mail.getD "") "messages"),
               Call.postSub (Az.GRAPH_API_URL ++ "/v1.0/subscriptions")
                 (azSubRequest w hk0 hk1 u (u.mail.getD "") "events")]) := by
  intro users
  induction users with
  | nil => intro _; exact ⟨rfl, rfl⟩
  | cons u us ih =>
    intro h
    have hm0 : u.mail ≠ none := h u (List.mem_cons_self u us)
    obtain ⟨m, hm⟩ : ∃ m, u.mail = some m := by
      cases hmc : u.mail with
      | none => exact absurd hmc hm0
      | some m => exact ⟨m, rfl⟩
    obtain ⟨ih1, ih2⟩ := ih (fun x hx => h x (List.mem_cons_of_mem u hx))
    rw [register_az_cons, register_az_body w hk0 hk1 cal email u m hm,
        Eff.bind_of_ok (rfl : (⟨Except.ok (), _, _⟩ : Eff Unit).res = Except.ok ())]
    refine ⟨ih1, ?_⟩
    show _ ++ (Az.register_subscriptions w hk0 hk1 us cal email).calls = _
    rw [ih2, concatMap_cons]
    simp [hm]

/-- C8 counterexample: in app.py, with a directory holding a None-mail user
followed by a user with a mail address, registration raises TypeError while
concatenating the None mail into the clientState — before any POST — so the
with-mail user gets zero subscriptions instead of the claimed two, and the
resync aborts instead of the failure being logged and skipped. -/
theorem claim_C8_counterexample :
    (register_subscriptions wEmpty "P" "S"
        [⟨"u0", none, ""⟩, ⟨"u1", some "a@x.com", "mgr@x.com"⟩] "c" "e").res
      = Except.error PyErr.typeError
    ∧ (register_subscriptions wEmpty "P" "S"
        [⟨"u0", none, ""⟩, ⟨"u1", some "a@x.com", "mgr@x.com"⟩] "c" "e").calls = [] := by
  refine ⟨?_, ?_⟩ <;> decide

/-- C8 (amended): provided every user in the directory carries a mail
address, for each such user exactly two subscription-creation POSTs are made
(kinds messages and events, in that order) with changeType
created,updated,deleted, notification URL = own base + callback path + kind +
key suffix, expiration = now + 24h, and clientState =
keyPrefix^ownerMail^managerMail (see `appSubRequest`/`azSubRequest`); the
registration as a whole succeeds for any pattern of per-POST failures
(failures are skipped), and a creation failure is logged.  In the
application.py variant the proviso is unnecessary: a None-mail user is
skipped and the remaining users are processed unchanged (final conjunct); in
the app.py variant a None-mail user instead raises TypeError, aborting the
registration of every later user and the resync (see the counterexample). -/
theorem claim_C8_theorem (w : World) (hk0 hk1 : String) (users : List UserFull)
    (cal email : String) (h : ∀ u ∈ users, u.mail ≠ none) :
    ((register_subscriptions w hk0 hk1 users cal email).res = Except.ok ()
      ∧ (register_subscriptions w hk0 hk1 users cal email).calls
          = concatMap users (fun u =>
              [Call.postSub (GRAPH_API_URL ++ "/v1.0/subscriptions")
                 (appSubRequest w hk0 hk1 u (u.mail.getD "") "messages"),
               Call.postSub (GRAPH_API_URL ++ "/v1.0/subscriptions")
                 (appSubRequest w hk0 hk1 u (u.mail.getD "") "events")]))
    ∧ ((Az.register_subscriptions w hk0 hk1 users cal email).res = Except.ok ()
      ∧ (Az.register_subscriptions w hk0 hk1 users cal email).calls
          = concatMap users (fun u =>
              [Call.postSub (Az.GRAPH_API_URL ++ "/v1.0/subscriptions")
                 (azSubRequest w hk0 hk1 u (u.mail.getD "") "messages"),
               Call.postSub (Az.GRAPH_API_URL ++ "/v1.0/subscriptions")
                 (azSubRequest w hk0 hk1 u (u.mail.getD "") "events")]))
    ∧ (∀ (u : UserFull) (m : String), u.mail = some m →
        w.postOk (appSubRequest w hk0 hk1 u m "messages") = false →
          ("Unable to subscribe " ++ m ++ " for " ++ "messages")
            ∈ (register_subscriptions w hk0 hk1 [u] cal email).logs)
    ∧ (∀ (u : UserFull) (us : List UserFull), u.mail = none →
        Az.register_subscriptions w hk0 hk1 (u :: us) cal email
          = Az.register_subscriptions w hk0 hk1 us cal email) := by
  refine ⟨register_app_spec w hk0 hk1 cal email users h,
          register_az_spec w hk0 hk1 cal email users h, ?_, ?_⟩
  · intro u m hm hpost
    rw [register_app_body w hk0 hk1 cal email u m hm]
    show _ ∈ (if w.postOk (appSubRequest w hk0 hk1 u m "messages") = true then []
              else ["Unable to subscribe " ++ m ++ " for " ++ "messages"]) ++ _
    rw [if_neg (by rw [hpost]; exact Bool.false_ne_true)]
    exact List.mem_append_left _ (List.mem_singleton.mpr rfl)
  · intro u us hmnone
    rw [register_az_cons]
    have h1 : Az.register_subscriptions w hk0 hk1 [u] cal email
        = ⟨Except.ok (), [], []⟩ := by
      unfold Az.register_subscriptions
      simp only [forEach, hmnone]
      rfl
    rw [h1, Eff.bind_of_ok (rfl : (⟨Except.ok (), [], []⟩ : Eff Unit).res = Except.ok ())]
    simp only [List.nil_append]

/-- C8 witness: the theorem at a concrete one-user directory, plus the
application.py skip of a concrete None-mail user. -/
theorem claim_C8_witness :
    (register_subscriptions wEmpty "P" "S" [⟨"u1", some "a@x.com", "mgr@x.com"⟩] "c" "e").res
      = Except.ok ()
    ∧ (Az.register_subscriptions wEmpty "P" "S" [⟨"u1", some "a@x.com", "mgr@x.com"⟩] "c" "e").res
      = Except.ok ()
    ∧ Az.register_subscriptions wEmpty "P" "S"
        [⟨"u0", none, ""⟩, ⟨"u1", some "a@x.com", "mgr@x.com"⟩] "c" "e"
      = Az.register_subscriptions wEmpty "P" "S" [⟨"u1", some "a@x.com", "mgr@x.com"⟩] "c" "e" :=
  ⟨(claim_C8_theorem wEmpty "P" "S" [⟨"u1", some "a@x.com", "mgr@x.com"⟩] "c" "e"
      (by decide)).1.1,
   (claim_C8_theorem wEmpty "P" "S" [⟨"u1", some "a@x.com", "mgr@x.com"⟩] "c" "e"
      (by decide)).2.1.1,
   (claim_C8_theorem wEmpty "P" "S" [⟨"u1", some "a@x.com", "mgr@x.com"⟩] "c" "e"
      (by decide)).2.2.2 ⟨"u0", none, ""⟩ [⟨"u1", some "a@x.com", "mgr@x.com"⟩] rfl⟩

/-! ## Claims C1 and C9: callback batch handling -/

theorem parse_event_res_ok (w : World) (ev : EventData) (owner : Option String) (cal : String) :
    (parse_event w ev owner cal).res = Except.ok () := by
  unfold parse_event
  split
  · rfl
  · cases hp : w.putOk cal <;> simp [forEach_emit, Eff.bind, Eff.pure, Eff.log, hp]

theorem process_event_status (w : World) (entry : StateRec) (mail odata_id : String) :
    (process_event w entry mail odata_id).res = Except.ok ()
    ∨ ∃ s, (process_event w entry mail odata_id).res = Except.error (PyErr.middleware s) := by
  unfold process_event
  rw [Eff.res_bind_of_ok (odata_getone_res w.fetchEvent _)]
  cases hfe : w.fetchEvent (GRAPH_API_URL ++ "/v1.0/" ++ odata_id
      ++ "?$select=id,subject,location,organizer,start,end,weblink,responsestatus,body,attendees,isCancelled") with
  | none => exact Or.inr ⟨_, rfl⟩
  | some j => exact Or.inl (parse_event_res_ok w j (some mail) entry.calendar_webhook)

theorem process_message_status (w : World) (entry : StateRec)
    (mail manager_mail odata_id : String) :
    (process_message w entry mail manager_mail odata_id).res = Except.ok ()
    ∨ ∃ s, (process_message w entry mail manager_mail odata_id).res
        = Except.error (PyErr.middleware s) := by
  unfold process_message
  rw [Eff.res_bind_of_ok (odata_getone_res w.fetchMessage _)]
  cases hf : w.fetchMessage (GRAPH_API_URL ++ "/v1.0/" ++ odata_id
      ++ "?$select=id,subject,from,toRecipients,importance,sentDateTime,webLink,isRead") with
  | none => exact Or.inr ⟨_, rfl⟩
  | some j =>
    refine Or.inl ?_
    by_cases h1 : manager_mail = pyLower j.fromAddress <;>
    by_cases h2 : j.importance = "high" <;>
    cases hp : w.putOk entry.email_webhook <;>
      simp [h1, h2, hp, forEach_emit, Eff.bind, Eff.pure, Eff.log]

/-- An item the callback handler can process without an uncatchable
exception: its clientState splits into exactly three caret-separated fields
and its resource OData id contains a slash. -/
def WellFormedItem (it : NotificationItem) : Prop :=
  (pySplit it.clientState '^').length = 3 ∧ 2 ≤ (pySplit it.odataId '/').length

instance : DecidablePred WellFormedItem := fun it => by
  unfold WellFormedItem
  infer_instance

theorem handle_value_status (w : World) (store : Store) (subscription hkey1 : String)
    (it : NotificationItem) (h : WellFormedItem it) :
    (_handle_subscription_callback_value w store subscription hkey1 it).res = Except.ok ()
    ∨ ∃ s, (_handle_subscription_callback_value w store subscription hkey1 it).res
        = Except.error (PyErr.middleware s) := by
  obtain ⟨h3, hsl⟩ := h
  obtain ⟨a, b, c, habc⟩ : ∃ a b c, pySplit it.clientState '^' = [a, b, c] := by
    rcases hl : pySplit it.clientState '^' with _ | ⟨a, _ | ⟨b, _ | ⟨c, _ | ⟨d, t⟩⟩⟩⟩ <;>
      rw [hl] at h3 <;> simp at h3
    exact ⟨a, b, c, rfl⟩
  unfold _handle_subscription_callback_value
  rw [habc]
  dsimp only
  cases hlk : storeLookup store (rebuild_key a hkey1) with
  | none => exact Or.inl rfl
  | some entry =>
    have hshort : (pyRsplitLast it.odataId).res = Except.ok ((pySplit it.odataId '/').getLastD "") := by
      unfold pyRsplitLast
      rw [if_pos hsl]
      rfl
    rw [Eff.res_bind_of_ok hshort]
    by_cases hm : (subscription == "messages") = true
    · rw [if_pos hm]
      by_cases hd : (it.changeType == "deleted") = true
      · rw [if_pos hd]
        exact Or.inl rfl
      · rw [if_neg hd]
        exact process_message_status w entry b c it.odataId
    · rw [if_neg hm]
      by_cases he : (subscription == "events") = true
      · rw [if_pos he]
        by_cases hd : (it.changeType == "deleted") = true
        · rw [if_pos hd]
          exact Or.inl rfl
        · rw [if_neg hd]
          exact process_event_status w entry b it.odataId
      · rw [if_neg he]
        exact Or.inr ⟨_, rfl⟩

theorem catchMW_res_ok {x : Eff Unit}
    (h : x.res = Except.ok () ∨ ∃ s, x.res = Except.error (PyErr.middleware s)) :
    (catchMW x).res = Except.ok () := by
  rcases h with h | ⟨s, h⟩
  · rw [catchMW_of_ok h, h]
  · rw [catchMW_of_mw h]

/-- C1 counterexample: a batch whose first item has a clientState with no
caret; the tuple unpacking of `clientState.split("^")` raises ValueError,
which the per-item handler catches only for MiddlewareException, so the whole
batch aborts: no 202 response (the handler raises), and the second item —
which on its own would produce a cache DELETE — is never processed. -/
theorem claim_C1_counterexample :
    (handle_subscription_callback wEmpty [("pk", ⟨none, "https://calhook", "https://mailhook", 5⟩)]
        "messages" "k" none
        [⟨"nocaret", "created", "a/b"⟩, ⟨"p^o^m", "deleted", "a/b"⟩]).res
      = Except.error PyErr.valueError
    ∧ (handle_subscription_callback wEmpty [("pk", ⟨none, "https://calhook", "https://mailhook", 5⟩)]
        "messages" "k" none
        [⟨"nocaret", "created", "a/b"⟩, ⟨"p^o^m", "deleted", "a/b"⟩]).calls = []
    ∧ (handle_subscription_callback wEmpty [("pk", ⟨none, "https://calhook", "https://mailhook", 5⟩)]
        "messages" "k" none [⟨"p^o^m", "deleted", "a/b"⟩]).calls
      = [Call.delete ("https://mailhook" ++ "/?id=" ++ "b")] := by
  refine ⟨?_, ?_, ?_⟩ <;> decide

/-- C1 (amended): for a POST to the callback endpoint without a
validationToken and with a JSON body carrying a value list, per-item failures
raised as MiddlewareException (unknown subscription kind, failed resource
fetches, races) are swallowed per item and the handler returns 202 with an
empty body — provided every item is well-formed (clientState splits into
exactly three caret-separated fields, resource id contains a slash).  An item
with a malformed clientState instead raises an uncaught ValueError that
aborts the whole batch, skips the remaining items, and prevents the 202. -/
theorem claim_C1_theorem (w : World) (store : Store) (subscription hkey1 : String)
    (items : List NotificationItem) (h : ∀ it ∈ items, WellFormedItem it) :
    (handle_subscription_callback w store subscription hkey1 none items).res
      = Except.ok ⟨202, ""⟩ := by
  unfold handle_subscription_callback
  have hloop : (forEach items (fun value =>
      catchMW (_handle_subscription_callback_value w store subscription hkey1 value))).res
        = Except.ok () := by
    apply forEach_res_ok
    intro it hit
    exact catchMW_res_ok (handle_value_status w store subscription hkey1 it (h it hit))
  rw [Eff.res_bind_of_ok hloop]
  rfl

/-- C1 witness: the amended theorem at a concrete two-item batch. -/
theorem claim_C1_witness :
    (handle_subscription_callback wEmpty
        [("pk", ⟨none, "https://calhook", "https://mailhook", 5⟩)] "messages" "k" none
        [⟨"p^o^m", "deleted", "a/b"⟩, ⟨"q^o^m", "created", "x/y"⟩]).res
      = Except.ok ⟨202, ""⟩ :=
  claim_C1_theorem wEmpty [("pk", ⟨none, "https://calhook", "https://mailhook", 5⟩)]
    "messages" "k" [⟨"p^o^m", "deleted", "a/b"⟩, ⟨"q^o^m", "created", "x/y"⟩] (by decide)

/-- C9: a notification item whose rebuilt key (clientState prefix + URL
suffix) is absent from the state store is handled benignly: a warning is
logged, no HTTP call is made for that item, the processing of the remaining
items of the batch is exactly what it would have been without this item
(same result, same calls, the warning prepended to the logs), and a batch of
just this item still gets the 202 response. -/
theorem claim_C9_theorem (w : World) (store : Store) (subscription hkey1 : String)
    (it : NotificationItem) (rest : List NotificationItem) (hk0 mailv mm : String)
    (hsplit : pySplit it.clientState '^' = [hk0, mailv, mm])
    (habs : storeLookup store (rebuild_key hk0 hkey1) = none) :
    _handle_subscription_callback_value w store subscription hkey1 it
      = ⟨Except.ok (), [], ["Received unexpected hkey " ++ rebuild_key hk0 hkey1]⟩
    ∧ handle_subscription_callback w store subscription hkey1 none (it :: rest)
      = ⟨(handle_subscription_callback w store subscription hkey1 none rest).res,
         (handle_subscription_callback w store subscription hkey1 none rest).calls,
         ("Received unexpected hkey " ++ rebuild_key hk0 hkey1)
           :: (handle_subscription_callback w store subscription hkey1 none rest).logs⟩
    ∧ (handle_subscription_callback w store subscription hkey1 none [it]).res
        = Except.ok ⟨202, ""⟩ := by
  have hval : _handle_subscription_callback_value w store subscription hkey1 it
      = ⟨Except.ok (), [], ["Received unexpected hkey " ++ rebuild_key hk0 hkey1]⟩ := by
    unfold _handle_subscription_callback_value
    rw [hsplit]
    dsimp only
    rw [habs]
    rfl
  have hbody : (fun value =>
      catchMW (_handle_subscription_callback_value w store subscription hkey1 value)) it
        = ⟨Except.ok (), [], ["Received unexpected hkey " ++ rebuild_key hk0 hkey1]⟩ := by
    show catchMW _ = _
    rw [hval]
    rfl
  refine ⟨hval, ?_, ?_⟩
  · unfold handle_subscription_callback
    rw [forEach_cons_split]
    show Eff.bind (Eff.bind (forEach [it] _) _) _ = _
    have h1 : forEach [it] (fun value =>
        catchMW (_handle_subscription_callback_value w store subscription hkey1 value))
          = ⟨Except.ok (), [], ["Received unexpected hkey " ++ rebuild_key hk0 hkey1]⟩ := by
      show Eff.bind _ (fun _ => Eff.pure ()) = _
      rw [hbody]
      rfl
    rw [h1]
    cases hres : (forEach rest (fun value =>
        catchMW (_handle_subscription_callback_value w store subscription hkey1 value))).res <;>
      simp [Eff.bind, Eff.pure, hres]
  · unfold handle_subscription_callback
    have h1 : (forEach [it] (fun value =>
        catchMW (_handle_subscription_callback_value w store subscription hkey1 value))).res
          = Except.ok () := by
      show (Eff.bind _ (fun _ => Eff.pure ())).res = _
      rw [Eff.res_bind_of_ok (by rw [hbody] : ((fun value =>
        catchMW (_handle_subscription_callback_value w store subscription hkey1 value)) it).res
          = Except.ok ())]
      rfl
    rw [Eff.res_bind_of_ok h1]
    rfl

/-- C9 witness: the theorem at a concrete item against an empty store. -/
theorem claim_C9_witness :
    _handle_subscription_callback_value wEmpty [] "messages" "k" ⟨"p^o^m", "created", "a/b"⟩
      = ⟨Except.ok (), [], ["Received unexpected hkey " ++ rebuild_key "p" "k"]⟩
    ∧ (handle_subscription_callback wEmpty [] "messages" "k" none
        [⟨"p^o^m", "created", "a/b"⟩]).res = Except.ok ⟨202, ""⟩ :=
  ⟨(claim_C9_theorem wEmpty [] "messages" "k" ⟨"p^o^m", "created", "a/b"⟩ []
      "p" "o" "m" (by decide) rfl).1,
   (claim_C9_theorem wEmpty [] "messages" "k" ⟨"p^o^m", "created", "a/b"⟩ []
      "p" "o" "m" (by decide) rfl).2.2⟩

/-! ## Claim C5: trigger with a future nextSyncAt -/

/-- C5: when the stored record's `next_sync` lies strictly in the future, the
trigger makes no HTTP call and logs nothing, returns 200, and persists under
the full key a record whose bearer credential and webhook URLs are the
caller's current request values while `next_sync` keeps the stored value. -/
theorem claim_C5_theorem (w : World) (store : Store) (authorization : Option String)
    (calendar_webhook email_webhook : String) (fuel : Nat) (rec : StateRec)
    (hlk : storeLookup store (sha512_hexdigest (calendar_webhook ++ email_webhook)) = some rec)
    (hfut : w.now < rec.next_sync) :
    trigger_middleware w store authorization calendar_webhook email_webhook fuel
      = ⟨Except.ok
          (⟨200, "\x7b\"status\": \"ok\"\x7d"⟩,
           storePut store (sha512_hexdigest (calendar_webhook ++ email_webhook))
             ⟨authorization, calendar_webhook, email_webhook, rec.next_sync⟩),
         [], []⟩ := by
  unfold trigger_middleware
  dsimp only
  rw [hlk]
  dsimp only [Option.map]
  have hds : decide (w.now ≥ rec.next_sync) = false := decide_eq_false (not_le.mpr hfut)
  rw [hds]
  simp [Eff.bind, Eff.pure]

/-- C5 witness: the theorem at a concrete store and clock. -/
theorem claim_C5_witness :
    trigger_middleware { wEmpty with now := 5 }
        [(sha512_hexdigest ("c" ++ "e"), ⟨some "old", "oldcal", "oldmail", 100⟩)]
        (some "auth") "c" "e" 2
      = ⟨Except.ok
          (⟨200, "\x7b\"status\": \"ok\"\x7d"⟩,
           storePut [(sha512_hexdigest ("c" ++ "e"), ⟨some "old", "oldcal", "oldmail", 100⟩)]
             (sha512_hexdigest ("c" ++ "e"))
             ⟨some "auth", "c", "e", (100 : Int)⟩),
         [], []⟩ :=
  claim_C5_theorem { wEmpty with now := 5 }
    [(sha512_hexdigest ("c" ++ "e"), ⟨some "old", "oldcal", "oldmail", 100⟩)]
    (some "auth") "c" "e" 2 ⟨some "old", "oldcal", "oldmail", 100⟩
    (by simp [storeLookup]) (by decide)

/-! ## Claim C2: trigger with no prior state does the full resync -/

theorem update_calendar_res_ok (w : World) (users : List UserFull) (cal : String) (fuel : Nat) :
    (update_calendar w users cal fuel).res = Except.ok () := by
  unfold update_calendar
  dsimp only
  apply forEach_res_ok
  intro u _
  obtain ⟨evs, hevs⟩ := odata_get_res_ok w.eventPages
    ("https://graph.microsoft.com/v1.0/" ++ "users/" ++ u.id ++ "/calendarview?"
      ++ "startdatetime=" ++ toString w.now ++ "&enddatetime="
      ++ toString (w.now + CALENDAR_DAYS_TO_CACHE * 86400)
      ++ "&select=id,subject,location,organizer,start,end,weblink,responsestatus,body,attendees,isCancelled")
    fuel
  rw [Eff.res_bind_of_ok hevs]
  dsimp only [pyIsNone]
  rw [if_neg (by simp)]
  rw [Eff.res_bind_of_ok (rfl : (Eff.log ("Got " ++ toString evs.length ++ " events")).res
        = Except.ok ())]
  exact forEach_res_ok (fun ev _ => parse_event_res_ok w ev u.mail cal)

theorem wipe_res_ok (w : World) (fuel : Nat) (hd : ∀ url, w.deleteOk url = true) :
    (wipe_subscriptions w fuel).res = Except.ok () := by
  obtain ⟨l, hl⟩ := odata_get_res_ok w.subPages
    (GRAPH_API_URL ++ "/v1.0/subscriptions/?" ++ "select=id,notificationUrl") fuel
  unfold wipe_subscriptions
  rw [Eff.res_bind_of_ok hl]
  rw [Eff.res_bind_of_ok (show (if pyIsNone (some l) = true
        then Eff.raiseMW "Failed to wipe subscriptions" else Eff.pure ()).res = Except.ok ()
      from by simp [pyIsNone, Eff.pure])]
  apply forEach_res_ok
  intro s _
  by_cases hs : pyStartsWith s.notificationUrl SUBSCRIPTION_CALLBACK_URL = true
  · rw [if_pos hs,
        Eff.res_bind_of_ok (rfl : (Eff.emit (Call.delete (GRAPH_API_URL ++ "/v1.0/subscriptions/"
            ++ s.id))).res = Except.ok ()),
        if_pos (hd (GRAPH_API_URL ++ "/v1.0/subscriptions/" ++ s.id))]
    rfl
  · rw [if_neg hs]
    rfl

/-- C2: a trigger call for a key with no stored state runs the full resync in
order — directory fetch, per-user calendar pull through the event path,
subscription wipe, subscription re-creation — then persists
`next_sync = now + 23h` under the full key (with the request's credential and
webhook URLs) and returns 200.  The hypotheses state the paths the claim
presumes succeed: upstream deletes succeed and every fetched directory user
carries a mail address. -/
theorem claim_C2_theorem (w : World) (store : Store) (authorization : Option String)
    (calendar_webhook email_webhook : String) (fuel : Nat)
    (h0 : storeLookup store (sha512_hexdigest (calendar_webhook ++ email_webhook)) = none)
    (hd : ∀ url, w.deleteOk url = true)
    (hm : ∀ u ∈ usersVal w fuel, u.mail ≠ none) :
    (trigger_middleware w store authorization calendar_webhook email_webhook fuel).res
      = Except.ok (⟨200, "\x7b\"status\": \"ok\"\x7d"⟩,
          storePut store (sha512_hexdigest (calendar_webhook ++ email_webhook))
            ⟨authorization, calendar_webhook, email_webhook, w.now + 23 * 3600⟩)
    ∧ (trigger_middleware w store authorization calendar_webhook email_webhook fuel).calls
      = (get_all_users w fuel).calls
        ++ ((update_calendar w (usersVal w fuel) calendar_webhook fuel).calls
        ++ ((wipe_subscriptions w fuel).calls
        ++ (register_subscriptions w
              (derive_key calendar_webhook email_webhook).1
              (derive_key calendar_webhook email_webhook).2
              (usersVal w fuel) calendar_webhook email_webhook).calls)) := by
  have husers := get_all_users_res w fuel
  have hupd := update_calendar_res_ok w (usersVal w fuel) calendar_webhook fuel
  have hwipe := wipe_res_ok w fuel hd
  have hreg := (register_app_spec w
    (derive_key calendar_webhook email_webhook).1
    (derive_key calendar_webhook email_webhook).2
    calendar_webhook email_webhook (usersVal w fuel) hm).1
  unfold trigger_middleware
  dsimp only
  rw [h0]
  dsimp only [Option.map]
  rw [Eff.bind_of_ok husers, Eff.bind_of_ok hupd, Eff.bind_of_ok hwipe, Eff.bind_of_ok hreg]
  constructor
  · simp [Eff.bind, Eff.pure, HOURS_BETWEEN_FULLSYNC_AND_RESCUBSCRIBE]
  · simp [Eff.bind, Eff.pure, List.append_assoc]

/-- C2 witness: the theorem at an empty store and an empty upstream. -/
theorem claim_C2_witness :
    (trigger_middleware wEmpty [] (some "auth") "c" "e" 1).res
      = Except.ok (⟨200, "\x7b\"status\": \"ok\"\x7d"⟩,
          storePut [] (sha512_hexdigest ("c" ++ "e"))
            ⟨some "auth", "c", "e", wEmpty.now + 23 * 3600⟩) :=
  (claim_C2_theorem wEmpty [] (some "auth") "c" "e" 1 rfl (fun _ => rfl) (by decide)).1
